import Mathlib

/-!
Verification development for the seamless_communication repository slice:
streaming agent pipeline declarations (`mma_m4t_s2st.py`), the evaluation
driver (`evaluate.py`), the language-code tables (`lang_mapping.py`) and the
ctypes bridging helper (`ctypes_utils.py`).

Pure data and control flow are embedded shallowly; components of the
repository that are referenced but absent from this slice (the generic
pipeline drivers in `unity_pipeline.py`) are modelled from the spec, and
those definitions say so in their doc comments.
-/

namespace Seamless

/-- The agent classes that appear in `mma_m4t_s2st.py`. -/
inductive AgentClass where
  | OnlineFeatureExtractorAgent
  | OfflineWav2VecBertEncoderAgent
  | UnitYMMATextDecoderAgent
  | NARUnitYUnitDecoderAgent
  | SileroVADAgent
  | VocoderAgent
  | PretsselVocoderAgent
  | UnitYDetokenizerAgent
  deriving DecidableEq, Repr

open AgentClass

/-- `MonotonicM4TS2STAgent.pipeline` (linear), from the source. -/
def MonotonicM4TS2STAgent_pipeline : List AgentClass :=
  [ OnlineFeatureExtractorAgent,
    OfflineWav2VecBertEncoderAgent,
    UnitYMMATextDecoderAgent,
    NARUnitYUnitDecoderAgent,
    VocoderAgent ]

/-- `SeamlessS2STAgent.pipeline` (linear), from the source. -/
def SeamlessS2STAgent_pipeline : List AgentClass :=
  [ OnlineFeatureExtractorAgent,
    OfflineWav2VecBertEncoderAgent,
    UnitYMMATextDecoderAgent,
    NARUnitYUnitDecoderAgent,
    PretsselVocoderAgent ]

/-- `MonotonicM4TS2STVADAgent.pipeline` (linear), from the source. -/
def MonotonicM4TS2STVADAgent_pipeline : List AgentClass :=
  [ SileroVADAgent,
    OnlineFeatureExtractorAgent,
    OfflineWav2VecBertEncoderAgent,
    UnitYMMATextDecoderAgent,
    NARUnitYUnitDecoderAgent,
    VocoderAgent ]

/-- A tree pipeline declaration: the ordered mapping from an agent class to
its list of downstream consumers, exactly as the Python class attribute
(`pipeline = {agent: [consumers]}`) declares it. -/
abbrev TreeDecl := List (AgentClass × List AgentClass)

/-- `MonotonicM4TS2STJointVADAgent.pipeline` (tree), from the source,
in declaration order. -/
def MonotonicM4TS2STJointVADAgent_pipeline : TreeDecl :=
  [ (SileroVADAgent, [OnlineFeatureExtractorAgent]),
    (OnlineFeatureExtractorAgent, [OfflineWav2VecBertEncoderAgent]),
    (OfflineWav2VecBertEncoderAgent, [UnitYMMATextDecoderAgent]),
    (UnitYMMATextDecoderAgent, [UnitYDetokenizerAgent, NARUnitYUnitDecoderAgent]),
    (UnitYDetokenizerAgent, []),
    (NARUnitYUnitDecoderAgent, [VocoderAgent]),
    (VocoderAgent, []) ]

/-- `SeamlessS2STJointVADAgent.pipeline` (tree), from the source,
in declaration order. -/
def SeamlessS2STJointVADAgent_pipeline : TreeDecl :=
  [ (SileroVADAgent, [OnlineFeatureExtractorAgent]),
    (OnlineFeatureExtractorAgent, [OfflineWav2VecBertEncoderAgent]),
    (OfflineWav2VecBertEncoderAgent, [UnitYMMATextDecoderAgent]),
    (UnitYMMATextDecoderAgent, [UnitYDetokenizerAgent, NARUnitYUnitDecoderAgent]),
    (UnitYDetokenizerAgent, []),
    (NARUnitYUnitDecoderAgent, [PretsselVocoderAgent]),
    (PretsselVocoderAgent, []) ]

/-- The nodes of a tree pipeline declaration, in declaration order. -/
def declNodes (g : TreeDecl) : List AgentClass := g.map Prod.fst

/-- The declared consumer list of `a` in `g` (`None` when `a` is not a key). -/
def consumersOf (g : TreeDecl) (a : AgentClass) : Option (List AgentClass) :=
  (g.find? (fun p => p.1 = a)).map Prod.snd

/-- Whether `a` appears in some declared consumer list of `g`
(i.e. has an incoming edge). -/
def hasIncoming (g : TreeDecl) (a : AgentClass) : Bool :=
  g.any (fun p => a ∈ p.2)

/-- A source of the declared graph: a declared node that appears in no
agent's consumer list. -/
def isSource (g : TreeDecl) (a : AgentClass) : Bool :=
  decide (a ∈ declNodes g) && !hasIncoming g a

/-- The sources of `g`, in declaration order. -/
def sourcesOf (g : TreeDecl) : List AgentClass :=
  (declNodes g).filter (isSource g)

/-- A sink of the declared graph: a node whose declared consumer list
is empty. -/
def isSink (g : TreeDecl) (a : AgentClass) : Bool :=
  consumersOf g a = some []

/-- The direct successors of `a` along declared edges. -/
def succsOf (g : TreeDecl) (a : AgentClass) : List AgentClass :=
  (consumersOf g a).getD []

/-- One expansion step of a reachable set along declared edges. -/
def reachStep (g : TreeDecl) (s : List AgentClass) : List AgentClass :=
  (s ++ s.flatMap (succsOf g)).dedup

/-- All nodes reachable from `a` in one or more steps: iterate the
one-step expansion `|g|` times starting from the direct successors. -/
def reachableFrom (g : TreeDecl) (a : AgentClass) : List AgentClass :=
  Nat.rec (succsOf g a) (fun _ ih => reachStep g ih) g.length

/-- The declared graph is acyclic: no node reaches itself by a
nonempty path. -/
def isAcyclic (g : TreeDecl) : Bool :=
  (declNodes g).all (fun a => !(decide (a ∈ reachableFrom g a)))

/-- The position of each agent class in the spec's stage order:
voice-activity gating, feature extraction, speech encoding, monotonic text
decoding, unit decoding, vocoding (both vocoder variants), detokenization
hanging off the text decoder. -/
def stageIndex : AgentClass → Nat
  | SileroVADAgent => 0
  | OnlineFeatureExtractorAgent => 1
  | OfflineWav2VecBertEncoderAgent => 2
  | UnitYMMATextDecoderAgent => 3
  | NARUnitYUnitDecoderAgent => 4
  | VocoderAgent => 5
  | PretsselVocoderAgent => 5
  | UnitYDetokenizerAgent => 6

/-- Modelled from the spec: the linear `UnitYAgentPipeline` driver (the class
itself lives in `unity_pipeline.py`, outside this slice) drives the agents of
the declared chain in sequence, feeding one agent's output segment as the
next listed agent's input.  `step a x` is agent `a` processing segment `x`. -/
def UnitYAgentPipeline_run {α : Type} (step : AgentClass → α → α)
    (chain : List AgentClass) (x : α) : α :=
  chain.foldl (fun acc a => step a acc) x

/-! ### Segments, actions and the per-edge driver discipline

The generic agent/driver framework lives in `unity_pipeline.py` and in the
`simuleval` dependency, neither of which is in this slice; the definitions
below are modelled from the spec. -/

/-- Modelled from the spec: a segment is a typed payload plus a finished
flag marking end-of-utterance. -/
structure Segment (α : Type) where
  payload : α
  is_finished : Bool
  deriving DecidableEq, Repr

/-- Modelled from the spec: an agent's policy either requests more input
(`read`) or emits a segment (`write`). -/
inductive Action (α : Type) where
  | read
  | write (seg : Segment α)

/-- Modelled from the spec: (§4.2; the `unity_pipeline.py` driver is absent) the
driver invokes the agent's policy on each successive upstream input; a
`write` emits the segment downstream, and if the segment is finished the
agent's output edge is closed — the driver makes no further calls to this
agent for the current utterance.  The result is the list of segments the
agent emits on its output edge within one utterance. -/
def agentEmissions {σ ι α : Type} (policy : σ → ι → σ × Action α) :
    List ι → σ → List (Segment α)
  | [], _ => []
  | i :: rest, s =>
    match policy s i with
    | (s2, Action.read) => agentEmissions policy rest s2
    | (s2, Action.write seg) =>
      if seg.is_finished then [seg]
      else seg :: agentEmissions policy rest s2

/-! ### Tree pipeline scheduling -/

/-- The declared parents of `a`: the keys whose consumer list contains `a`,
in declaration order. -/
def parentsOf (g : TreeDecl) (a : AgentClass) : List AgentClass :=
  (g.filter (fun p => a ∈ p.2)).map Prod.fst

/-- Modelled from the spec: one growth step of the deterministic
topological order — append the first node in declaration order that is not
placed yet and all of whose declared parents are already placed (ties among
ready nodes broken by declaration order). -/
def topoGrow (g : TreeDecl) (acc : List AgentClass) : List AgentClass :=
  match (declNodes g).find?
      (fun a => !(decide (a ∈ acc)) && (parentsOf g a).all (fun p => decide (p ∈ acc))) with
  | some a => acc ++ [a]
  | none => acc

/-- Modelled from the spec: the deterministic topological execution order
computed at construction time, by iterating `topoGrow` once per declared
node. -/
def topoOrder (g : TreeDecl) : List AgentClass :=
  Nat.rec [] (fun _ ih => topoGrow g ih) g.length

/-- Every declared edge goes strictly forward in the order `ord`. -/
def respectsEdges (g : TreeDecl) (ord : List AgentClass) : Bool :=
  g.all (fun p => p.2.all (fun c => decide (ord.indexOf p.1 < ord.indexOf c)))

/-- Modelled from the spec: the tree-pipeline driver visits agents in the
deterministic topological order; each agent's input is the external input
at a source, and otherwise the list of its declared parents' outputs; each
output is recorded for routing to all downstream consumers.  Returns the
association list of every agent's output, in execution order. -/
def UnitYAgentTreePipeline_run {α : Type} (step : AgentClass → List α → α)
    (g : TreeDecl) (ext : α) : List (AgentClass × α) :=
  (topoOrder g).foldl
    (fun outs a =>
      let parentOuts := (parentsOf g a).filterMap
        (fun p => (outs.find? (fun q => q.1 = p)).map Prod.snd)
      let input := if parentsOf g a = [] then [ext] else parentOuts
      outs ++ [(a, step a input)])
    []

/-! ### The batch evaluation driver (`evaluate.py`) -/

/-- `EvalContext` from `evaluate.py`, restricted to the fields the
evaluation loop reads; `O` abstracts `SequenceGeneratorOptions`. -/
structure EvalContext (O : Type) where
  task : String
  target_lang : String
  source_lang : Option String
  input_modality_speech : Bool
  output_modality_speech : Bool
  batch_size : Nat
  text_generation_opts : O
  unit_generation_opts : Option O
  unit_generation_ngram_filtering : Bool
  deriving DecidableEq

/-- The arguments of one `translator.predict` invocation in `run_eval`. -/
structure PredictCall (O : Type) where
  task : String
  tgt_lang : String
  src_lang : Option String
  text_generation_opts : O
  unit_generation_opts : Option O
  unit_generation_ngram_filtering : Bool
  deriving DecidableEq

/-- The `predict` call `run_eval` makes for one batch, argument for
argument as in the source: each keyword is the corresponding `ctx` field. -/
def mkPredictCall {O : Type} (ctx : EvalContext O) : PredictCall O :=
  { task := ctx.task
    tgt_lang := ctx.target_lang
    src_lang := ctx.source_lang
    text_generation_opts := ctx.text_generation_opts
    unit_generation_opts := ctx.unit_generation_opts
    unit_generation_ngram_filtering := ctx.unit_generation_ngram_filtering }

/-- The effect of `build_data_pipeline` on `ctx`: in the text-input branch
it overwrites `ctx.source_lang` with the first example's `src_lang` column
when the header has one, and raises `ValueError` (`none` here) when neither
the header nor the arguments provide a source language.  No other `ctx`
field is written anywhere in `evaluate.py` after construction. -/
def build_data_pipeline_ctx {O : Type} (ctx : EvalContext O)
    (header_has_src_lang : Bool) (first_example_src_lang : String) :
    Option (EvalContext O) :=
  if ctx.input_modality_speech then some ctx
  else if header_has_src_lang then
    some { ctx with source_lang := some first_example_src_lang }
  else if ctx.source_lang = none then none
  else some ctx

/-- The evaluation loop of `run_eval`, restricted to the `predict` calls it
issues: one batch is summarised by whether `src.seqs.numel() > 0` held after
dropping corrupted rows (`true` iff `predict` is invoked for it).  `ctx` is
threaded through the iterations unchanged, as in the source, which never
assigns to it inside the loop. -/
def runEvalLoop {O : Type} : EvalContext O → List Bool → List (PredictCall O)
  | _, [] => []
  | ctx, b :: bs => (if b then [mkPredictCall ctx] else []) ++ runEvalLoop ctx bs

/-- `run_eval`: build the data pipeline (possibly updating
`ctx.source_lang`), then loop over the batches. -/
def run_eval_calls {O : Type} (ctx : EvalContext O)
    (header_has_src_lang : Bool) (first_example_src_lang : String)
    (batches : List Bool) : List (PredictCall O) :=
  match build_data_pipeline_ctx ctx header_has_src_lang first_example_src_lang with
  | none => []
  | some ctx2 => runEvalLoop ctx2 batches

/-! ### Language-code tables (`lang_mapping.py`)

A Python dict is embedded as an association list in insertion order; a
repeated key keeps its first position but takes the latest value, as in
CPython. -/

/-- A Python dict as an ordered association list. -/
abbrev PyDict := List (String × String)

/-- Inserting `(k, v)`: overwrite in place when `k` is present, else
append. -/
def dictInsert : PyDict → String → String → PyDict
  | [], k, v => [(k, v)]
  | p :: rest, k, v =>
    if p.1 == k then (k, v) :: rest else p :: dictInsert rest k v

/-- Build a dict from the successive key-value pairs of a literal. -/
def dictOfLiteral (l : List (String × String)) : PyDict :=
  l.foldl (fun d p => dictInsert d p.1 p.2) []

/-- `d[k]` as an option. -/
def dictGet (d : PyDict) (k : String) : Option String :=
  (d.find? (fun p => p.1 == k)).map Prod.snd

/-- The key-value pairs of the `LANG2_LANG3` literal in source order,
duplicated keys included ("tl", "pa", "sv", "hy", "ne", "he" recur). -/
def LANG2_LANG3_literal : List (String × String) :=
  [ ("en", "eng"), ("ar", "arb"), ("as", "asm"), ("be", "bel"), ("bg", "bul"),
    ("bn", "ben"), ("ca", "cat"), ("ckb", "ckb"), ("cs", "ces"), ("cy", "cym"),
    ("da", "dan"), ("de", "deu"), ("el", "ell"), ("es", "spa"), ("et", "est"),
    ("fa", "pes"), ("fi", "fin"), ("fr", "fra"), ("ga", "gle"), ("hi", "hin"),
    ("hu", "hun"), ("id", "ind"), ("it", "ita"), ("ja", "jpn"), ("ka", "kat"),
    ("ky", "kir"), ("lg", "lug"), ("lt", "lit"), ("lv", "lvs"), ("mn", "khk"),
    ("mr", "mar"), ("mt", "mlt"), ("nl", "nld"), ("pa", "pan"), ("pl", "pol"),
    ("pt", "por"), ("ro", "ron"), ("ru", "rus"), ("sk", "slk"), ("sl", "slv"),
    ("sv", "swe"), ("sw", "swh"), ("ta", "tam"), ("th", "tha"), ("tr", "tur"),
    ("uk", "ukr"), ("ur", "urd"), ("uz", "uzn"), ("vi", "vie"), ("yue", "yue"),
    ("af", "afr"), ("is", "isl"), ("lb", "ltz"), ("no", "nob"), ("gl", "glg"),
    ("kea", "kea"), ("bs", "bos"), ("hr", "hrv"), ("mk", "mkd"), ("sr", "srp"),
    ("hy", "hye"), ("az", "azj"), ("kk", "kaz"), ("ko", "kor"), ("gu", "guj"),
    ("kn", "kan"), ("ne", "npi"), ("or", "ory"), ("sd", "snd"), ("te", "tel"),
    ("ceb", "ceb"), ("jv", "jav"), ("ms", "zlm"), ("ml", "mal"), ("tl", "tgl"),
    ("tl", "fil"), ("my", "mya"), ("km", "khm"), ("lo", "lao"), ("he", "heb"),
    ("ps", "pbt"), ("tg", "tgk"), ("am", "amh"), ("ig", "ibo"), ("ln", "lin"),
    ("nso", "nso"), ("so", "som"), ("xh", "xho"), ("yo", "yor"), ("zu", "zul"),
    ("kam", "kam"), ("luo", "luo"), ("ny", "nya"), ("om", "gaz"), ("sn", "sna"),
    ("umb", "umb"), ("ga-IE", "gle"), ("pa", "pan"), ("sv", "swe"),
    ("ast", "ast"), ("ff", "ful"), ("mi", "mri"), ("ha", "hau"), ("wo", "wol"),
    ("oc", "oci"), ("ilo", "ilo"), ("ba", "bak"), ("br", "bre"), ("fy", "fry"),
    ("yi", "yid"), ("tn", "tsn"), ("gd", "gla"), ("ht", "hat"), ("mg", "mlg"),
    ("ns", "nso"), ("si", "sin"), ("sq", "sqi"), ("ss", "ssw"), ("su", "sun"),
    ("zh", "cmn"), ("ab", "abk"), ("bas", "bas"), ("cnh", "cnh"), ("cv", "chv"),
    ("dv", "div"), ("eo", "epo"), ("eu", "eus"), ("fy-NL", "fry"),
    ("gn", "grn"), ("hsb", "hsb"), ("hy", "hye"), ("ia", "ina"),
    ("kab", "kab"), ("kmr", "kmr"), ("mdf", "mdf"), ("mhr", "mhr"),
    ("myv", "myv"), ("nan-tw", "hbl"), ("ne", "npi"), ("nn-NO", "nno"),
    ("rm-sursilv", "rm-sursilv"), ("rm-vallader", "rm-vallader"),
    ("rw", "kin"), ("sah", "sah"), ("sat", "sat"), ("sc", "srd"),
    ("tig", "tig"), ("tok", "tok"), ("tt", "tat"), ("ug", "uig"),
    ("vot", "vot"), ("mrj", "mrj"), ("skr", "skr"), ("ti", "tir"),
    ("tw", "twi"), ("bo", "bod"), ("fo", "fao"), ("gv", "glv"),
    ("haw", "haw"), ("la", "lat"), ("sa", "san"), ("sco", "sco"),
    ("war", "war"), ("he", "heb"), ("jw", "jav"), ("nn", "nno"),
    ("tk", "tuk") ]

/-- `LANG2_LANG3`, the dict the literal evaluates to. -/
def LANG2_LANG3 : PyDict := dictOfLiteral LANG2_LANG3_literal

/-- `LANG3_LANG2 = {v: k for k, v in LANG2_LANG3.items()}`. -/
def LANG3_LANG2 : PyDict :=
  dictOfLiteral (LANG2_LANG3.map (fun p => (p.2, p.1)))

/-! ### Output adjustment for corrupted inputs (`evaluate.py`) -/

/-- A waveform as integer samples; `torch.zeros(n)` is `n` zero samples. -/
abbrev Wav := List Int

/-- Modelled from the spec: `BatchedSpeechOutput` is imported
from `models/inference`, outside this slice; per its use in `evaluate.py` it
carries unit lists, waveforms and a sample rate, and a fresh
`BatchedSpeechOutput(units=[], audio_wavs=[])` takes the default sample
rate. -/
structure BatchedSpeechOutput where
  units : List (List Nat)
  audio_wavs : List Wav
  sample_rate : Nat
  deriving Repr

/-- Modelled from the spec: the default sample rate a fresh
`BatchedSpeechOutput` is constructed with. -/
def default_sample_rate : Nat := 16000

/-- Python errors the embedded functions can raise. -/
inductive PyErr where
  | assertionError
  | attributeError
  | indexError
  | valueError
  deriving DecidableEq, Repr

/-- `l[k]` with Python semantics: out of range raises `IndexError`. -/
def pyIndex {β : Type} (l : List β) (k : Nat) : Except PyErr β :=
  match l[k]? with
  | some x => Except.ok x
  | none => Except.error PyErr.indexError

/-- The loop of `adjust_output_for_corrupted_inputs`: walk the validity
mask with the running `batch_counter` `k`; a valid row copies
`text_output[k]` (and, with speech present, `units[k]` and
`audio_wavs[k]`) and increments the counter; an invalid row appends the
dummy outputs — empty string, empty unit list, one second of zeros at the
adjusted output's sample rate. -/
def adjustLoop (text_output : List String) (so : Option BatchedSpeechOutput) :
    List Bool → Nat → Except PyErr (List String × List (List Nat) × List Wav)
  | [], _ => Except.ok ([], [], [])
  | b :: rest, k =>
    if b then do
      let t ← pyIndex text_output k
      let (ts, us, ws) ← adjustLoop text_output so rest (k + 1)
      match so with
      | none => Except.ok (t :: ts, us, ws)
      | some s => do
        let u ← pyIndex s.units k
        let w ← pyIndex s.audio_wavs k
        Except.ok (t :: ts, u :: us, w :: ws)
    else do
      let (ts, us, ws) ← adjustLoop text_output so rest k
      match so with
      | none => Except.ok ("" :: ts, us, ws)
      | some _ =>
        Except.ok ("" :: ts, [] :: us, List.replicate default_sample_rate 0 :: ws)

/-- `adjust_output_for_corrupted_inputs` from `evaluate.py`: with speech
output present, assert the three outputs are equally long and build an
adjusted `BatchedSpeechOutput` alongside the adjusted text; otherwise
adjust the text only. -/
def adjust_output_for_corrupted_inputs (valid_sequences : List Bool)
    (text_output : List String) (speech_output : Option BatchedSpeechOutput) :
    Except PyErr (List String × Option BatchedSpeechOutput) :=
  match speech_output with
  | none => do
    let (ts, _, _) ← adjustLoop text_output none valid_sequences 0
    Except.ok (ts, none)
  | some s =>
    if text_output.length = s.units.length ∧ s.units.length = s.audio_wavs.length
    then do
      let (ts, us, ws) ← adjustLoop text_output (some s) valid_sequences 0
      Except.ok (ts, some ⟨us, ws, default_sample_rate⟩)
    else Except.error PyErr.assertionError

/-! ### The ctypes bridging helper (`ctypes_utils.py`) -/

/-- A Python value passed to `_py_type_to_ctype` as a type annotation: a
string annotation, the `None` object, a builtin type, a class from the
`ctypes` module, a `ctypes.Structure` subclass (with its defining module),
a `Ptr[...]` generic alias (whose `__origin__` is `Ptr`), or any other
class with its `__module__`. -/
inductive PyAnn where
  | strAnn (s : String)
  | pyNone
  | intTy
  | floatTy
  | boolTy
  | strTy
  | ctypesTy (name : String)
  | structTy (name : String) (module : String)
  | ptrTy (arg : PyAnn)
  | otherTy (module : String)
  deriving DecidableEq, Repr

/-- The `__module__` attribute lookup: builtin classes live in `builtins`;
the `None` object has no `__module__` attribute (an `AttributeError`); a
`Ptr[...]` alias proxies its origin's defining module, `ctypes_utils`. -/
def dunderModule : PyAnn → Option String
  | PyAnn.strAnn _ => none
  | PyAnn.pyNone => none
  | PyAnn.intTy => some "builtins"
  | PyAnn.floatTy => some "builtins"
  | PyAnn.boolTy => some "builtins"
  | PyAnn.strTy => some "builtins"
  | PyAnn.ctypesTy _ => some "ctypes"
  | PyAnn.structTy _ m => some m
  | PyAnn.ptrTy _ => some "ctypes_utils"
  | PyAnn.otherTy m => some m

/-- `isinstance(t, str)`. -/
def isStrInstance : PyAnn → Bool
  | PyAnn.strAnn _ => true
  | _ => false

/-- `isinstance(t, type) and issubclass(t, ctypes.Structure)`. -/
def isStructureSubclass : PyAnn → Bool
  | PyAnn.structTy _ _ => true
  | _ => false

/-- `getattr(t, "__origin__", None) is Ptr`. -/
def originIsPtr : PyAnn → Bool
  | PyAnn.ptrTy _ => true
  | _ => false

/-- What `_py_type_to_ctype` can return: the Python `None` object (from the
`if t is None` branch), a primitive ctypes type, the argument itself (for
`ctypes` classes and `Structure` subclasses), a pointer type, or
`c_void_p`. -/
inductive CtypeVal where
  | pyNoneVal
  | c_int
  | c_float
  | c_bool
  | c_char_p
  | given (t : PyAnn)
  | pointer (p : CtypeVal)
  | c_void_p
  deriving DecidableEq, Repr

/-- `_py_type_to_ctype` from `ctypes_utils.py`, branch for branch in source
order: reject string annotations with `ValueError`; then read
`t.__module__` — which raises `AttributeError` when `t` has no such
attribute, before any later test runs; return `t` for `ctypes` classes and
`Structure` subclasses; map the builtins; return `None` when `t is None`;
recurse through `Ptr[...]` when `t.__origin__ is Ptr`; default to
`c_void_p`.  The `Ptr[...]` case is split into its own top-level arm so the
recursion is structural; its if-chain is the same, and in the second arm
the `__origin__ is Ptr` test is necessarily false, leaving `c_void_p`. -/
def _py_type_to_ctype : PyAnn → Except PyErr CtypeVal
  | PyAnn.ptrTy a =>
    if isStrInstance (PyAnn.ptrTy a) then Except.error PyErr.valueError
    else match dunderModule (PyAnn.ptrTy a) with
    | none => Except.error PyErr.attributeError
    | some m =>
      if m = "ctypes" then Except.ok (CtypeVal.given (PyAnn.ptrTy a))
      else if isStructureSubclass (PyAnn.ptrTy a) then
        Except.ok (CtypeVal.given (PyAnn.ptrTy a))
      else if PyAnn.ptrTy a = PyAnn.intTy then Except.ok CtypeVal.c_int
      else if PyAnn.ptrTy a = PyAnn.floatTy then Except.ok CtypeVal.c_float
      else if PyAnn.ptrTy a = PyAnn.boolTy then Except.ok CtypeVal.c_bool
      else if PyAnn.ptrTy a = PyAnn.strTy then Except.ok CtypeVal.c_char_p
      else if PyAnn.ptrTy a = PyAnn.pyNone then Except.ok CtypeVal.pyNoneVal
      else (_py_type_to_ctype a).map CtypeVal.pointer
  | t =>
    if isStrInstance t then Except.error PyErr.valueError
    else match dunderModule t with
    | none => Except.error PyErr.attributeError
    | some m =>
      if m = "ctypes" then Except.ok (CtypeVal.given t)
      else if isStructureSubclass t then Except.ok (CtypeVal.given t)
      else if t = PyAnn.intTy then Except.ok CtypeVal.c_int
      else if t = PyAnn.floatTy then Except.ok CtypeVal.c_float
      else if t = PyAnn.boolTy then Except.ok CtypeVal.c_bool
      else if t = PyAnn.strTy then Except.ok CtypeVal.c_char_p
      else if t = PyAnn.pyNone then Except.ok CtypeVal.pyNoneVal
      else Except.ok CtypeVal.c_void_p

/-- Whether `_py_type_to_ctype` returns the Python `None` object (the value
of the `if t is None: return None` branch). -/
def returnsPyNone (t : PyAnn) : Bool :=
  match _py_type_to_ctype t with
  | Except.ok CtypeVal.pyNoneVal => true
  | _ => false

/-! ### Helpers for stating the claims, and concrete test fixtures -/

/-- The entries of `l` at the `true` positions of `mask`, in order. -/
def maskFilter {β : Type} (mask : List Bool) (l : List β) : List β :=
  (mask.zip l).filterMap (fun p => if p.1 then some p.2 else none)

/-- A concrete evaluation context over `Nat`-valued generation options. -/
def ctxW : EvalContext Nat :=
  { task := "S2ST"
    target_lang := "eng"
    source_lang := none
    input_modality_speech := true
    output_modality_speech := true
    batch_size := 4
    text_generation_opts := 7
    unit_generation_opts := some 9
    unit_generation_ngram_filtering := true }

/-- A concrete speech output batch of two sequences. -/
def soW : BatchedSpeechOutput :=
  { units := [[1], [2]], audio_wavs := [[3], [4]], sample_rate := 22050 }

/-- A concrete policy for exercising `agentEmissions`: write the input,
marking it finished from value `2` on. -/
def polW : Unit → Nat → Unit × Action Nat :=
  fun _ n => ((), Action.write { payload := n, is_finished := decide (2 ≤ n) })

/-- The dict `LANG2_LANG3` evaluates to, written out: each key keeps its
first position and latest value ("tl" maps to "fil", its second value). -/
def LANG2_LANG3_nf : PyDict :=
  [ ("en", "eng"), ("ar", "arb"), ("as", "asm"), ("be", "bel"),
    ("bg", "bul"), ("bn", "ben"), ("ca", "cat"), ("ckb", "ckb"),
    ("cs", "ces"), ("cy", "cym"), ("da", "dan"), ("de", "deu"),
    ("el", "ell"), ("es", "spa"), ("et", "est"), ("fa", "pes"),
    ("fi", "fin"), ("fr", "fra"), ("ga", "gle"), ("hi", "hin"),
    ("hu", "hun"), ("id", "ind"), ("it", "ita"), ("ja", "jpn"),
    ("ka", "kat"), ("ky", "kir"), ("lg", "lug"), ("lt", "lit"),
    ("lv", "lvs"), ("mn", "khk"), ("mr", "mar"), ("mt", "mlt"),
    ("nl", "nld"), ("pa", "pan"), ("pl", "pol"), ("pt", "por"),
    ("ro", "ron"), ("ru", "rus"), ("sk", "slk"), ("sl", "slv"),
    ("sv", "swe"), ("sw", "swh"), ("ta", "tam"), ("th", "tha"),
    ("tr", "tur"), ("uk", "ukr"), ("ur", "urd"), ("uz", "uzn"),
    ("vi", "vie"), ("yue", "yue"), ("af", "afr"), ("is", "isl"),
    ("lb", "ltz"), ("no", "nob"), ("gl", "glg"), ("kea", "kea"),
    ("bs", "bos"), ("hr", "hrv"), ("mk", "mkd"), ("sr", "srp"),
    ("hy", "hye"), ("az", "azj"), ("kk", "kaz"), ("ko", "kor"),
    ("gu", "guj"), ("kn", "kan"), ("ne", "npi"), ("or", "ory"),
    ("sd", "snd"), ("te", "tel"), ("ceb", "ceb"), ("jv", "jav"),
    ("ms", "zlm"), ("ml", "mal"), ("tl", "fil"), ("my", "mya"),
    ("km", "khm"), ("lo", "lao"), ("he", "heb"), ("ps", "pbt"),
    ("tg", "tgk"), ("am", "amh"), ("ig", "ibo"), ("ln", "lin"),
    ("nso", "nso"), ("so", "som"), ("xh", "xho"), ("yo", "yor"),
    ("zu", "zul"), ("kam", "kam"), ("luo", "luo"), ("ny", "nya"),
    ("om", "gaz"), ("sn", "sna"), ("umb", "umb"), ("ga-IE", "gle"),
    ("ast", "ast"), ("ff", "ful"), ("mi", "mri"), ("ha", "hau"),
    ("wo", "wol"), ("oc", "oci"), ("ilo", "ilo"), ("ba", "bak"),
    ("br", "bre"), ("fy", "fry"), ("yi", "yid"), ("tn", "tsn"),
    ("gd", "gla"), ("ht", "hat"), ("mg", "mlg"), ("ns", "nso"),
    ("si", "sin"), ("sq", "sqi"), ("ss", "ssw"), ("su", "sun"),
    ("zh", "cmn"), ("ab", "abk"), ("bas", "bas"), ("cnh", "cnh"),
    ("cv", "chv"), ("dv", "div"), ("eo", "epo"), ("eu", "eus"),
    ("fy-NL", "fry"), ("gn", "grn"), ("hsb", "hsb"), ("ia", "ina"),
    ("kab", "kab"), ("kmr", "kmr"), ("mdf", "mdf"), ("mhr", "mhr"),
    ("myv", "myv"), ("nan-tw", "hbl"), ("nn-NO", "nno"),
    ("rm-sursilv", "rm-sursilv"), ("rm-vallader", "rm-vallader"),
    ("rw", "kin"), ("sah", "sah"), ("sat", "sat"), ("sc", "srd"),
    ("tig", "tig"), ("tok", "tok"), ("tt", "tat"), ("ug", "uig"),
    ("vot", "vot"), ("mrj", "mrj"), ("skr", "skr"), ("ti", "tir"),
    ("tw", "twi"), ("bo", "bod"), ("fo", "fao"), ("gv", "glv"),
    ("haw", "haw"), ("la", "lat"), ("sa", "san"), ("sco", "sco"),
    ("war", "war"), ("jw", "jav"), ("nn", "nno"), ("tk", "tuk") ]

/-- The dict `LANG3_LANG2` evaluates to, written out: each three-letter
value maps to the last two-letter key carrying it ("gle" to "ga-IE"). -/
def LANG3_LANG2_nf : PyDict :=
  [ ("eng", "en"), ("arb", "ar"), ("asm", "as"), ("bel", "be"),
    ("bul", "bg"), ("ben", "bn"), ("cat", "ca"), ("ckb", "ckb"),
    ("ces", "cs"), ("cym", "cy"), ("dan", "da"), ("deu", "de"),
    ("ell", "el"), ("spa", "es"), ("est", "et"), ("pes", "fa"),
    ("fin", "fi"), ("fra", "fr"), ("gle", "ga-IE"), ("hin", "hi"),
    ("hun", "hu"), ("ind", "id"), ("ita", "it"), ("jpn", "ja"),
    ("kat", "ka"), ("kir", "ky"), ("lug", "lg"), ("lit", "lt"),
    ("lvs", "lv"), ("khk", "mn"), ("mar", "mr"), ("mlt", "mt"),
    ("nld", "nl"), ("pan", "pa"), ("pol", "pl"), ("por", "pt"),
    ("ron", "ro"), ("rus", "ru"), ("slk", "sk"), ("slv", "sl"),
    ("swe", "sv"), ("swh", "sw"), ("tam", "ta"), ("tha", "th"),
    ("tur", "tr"), ("ukr", "uk"), ("urd", "ur"), ("uzn", "uz"),
    ("vie", "vi"), ("yue", "yue"), ("afr", "af"), ("isl", "is"),
    ("ltz", "lb"), ("nob", "no"), ("glg", "gl"), ("kea", "kea"),
    ("bos", "bs"), ("hrv", "hr"), ("mkd", "mk"), ("srp", "sr"),
    ("hye", "hy"), ("azj", "az"), ("kaz", "kk"), ("kor", "ko"),
    ("guj", "gu"), ("kan", "kn"), ("npi", "ne"), ("ory", "or"),
    ("snd", "sd"), ("tel", "te"), ("ceb", "ceb"), ("jav", "jw"),
    ("zlm", "ms"), ("mal", "ml"), ("fil", "tl"), ("mya", "my"),
    ("khm", "km"), ("lao", "lo"), ("heb", "he"), ("pbt", "ps"),
    ("tgk", "tg"), ("amh", "am"), ("ibo", "ig"), ("lin", "ln"),
    ("nso", "ns"), ("som", "so"), ("xho", "xh"), ("yor", "yo"),
    ("zul", "zu"), ("kam", "kam"), ("luo", "luo"), ("nya", "ny"),
    ("gaz", "om"), ("sna", "sn"), ("umb", "umb"), ("ast", "ast"),
    ("ful", "ff"), ("mri", "mi"), ("hau", "ha"), ("wol", "wo"),
    ("oci", "oc"), ("ilo", "ilo"), ("bak", "ba"), ("bre", "br"),
    ("fry", "fy-NL"), ("yid", "yi"), ("tsn", "tn"), ("gla", "gd"),
    ("hat", "ht"), ("mlg", "mg"), ("sin", "si"), ("sqi", "sq"),
    ("ssw", "ss"), ("sun", "su"), ("cmn", "zh"), ("abk", "ab"),
    ("bas", "bas"), ("cnh", "cnh"), ("chv", "cv"), ("div", "dv"),
    ("epo", "eo"), ("eus", "eu"), ("grn", "gn"), ("hsb", "hsb"),
    ("ina", "ia"), ("kab", "kab"), ("kmr", "kmr"), ("mdf", "mdf"),
    ("mhr", "mhr"), ("myv", "myv"), ("hbl", "nan-tw"), ("nno", "nn"),
    ("rm-sursilv", "rm-sursilv"), ("rm-vallader", "rm-vallader"),
    ("kin", "rw"), ("sah", "sah"), ("sat", "sat"), ("srd", "sc"),
    ("tig", "tig"), ("tok", "tok"), ("tat", "tt"), ("uig", "ug"),
    ("vot", "vot"), ("mrj", "mrj"), ("skr", "skr"), ("tir", "ti"),
    ("twi", "tw"), ("bod", "bo"), ("fao", "fo"), ("glv", "gv"),
    ("haw", "haw"), ("lat", "la"), ("san", "sa"), ("sco", "sco"),
    ("war", "war"), ("tuk", "tk") ]

end Seamless

namespace Seamless

open AgentClass

/-! ## Claim theorems -/

/-- C1: each declared tree pipeline induces a graph that is a DAG with
exactly one source (an agent in no consumer list) and at least one sink
(an agent with an empty consumer list). -/
theorem C1_tree_pipelines_unique_source_dag :
    (isAcyclic MonotonicM4TS2STJointVADAgent_pipeline = true ∧
      (sourcesOf MonotonicM4TS2STJointVADAgent_pipeline).length = 1 ∧
      (declNodes MonotonicM4TS2STJointVADAgent_pipeline).any
        (isSink MonotonicM4TS2STJointVADAgent_pipeline) = true) ∧
    (isAcyclic SeamlessS2STJointVADAgent_pipeline = true ∧
      (sourcesOf SeamlessS2STJointVADAgent_pipeline).length = 1 ∧
      (declNodes SeamlessS2STJointVADAgent_pipeline).any
        (isSink SeamlessS2STJointVADAgent_pipeline) = true) := by
  decide

/-- C2 (counterexample): in both declared tree pipelines the speech
encoder's consumer list is exactly the text decoder, so it contains
neither the detokenizer nor the unit decoder — the claimed fan-out at the
encoder is false on the code. -/
theorem C2_counterexample_encoder_consumers :
    consumersOf MonotonicM4TS2STJointVADAgent_pipeline OfflineWav2VecBertEncoderAgent
        = some [UnitYMMATextDecoderAgent] ∧
    decide (UnitYDetokenizerAgent
        ∈ (consumersOf MonotonicM4TS2STJointVADAgent_pipeline
            OfflineWav2VecBertEncoderAgent).getD []) = false ∧
    consumersOf SeamlessS2STJointVADAgent_pipeline OfflineWav2VecBertEncoderAgent
        = some [UnitYMMATextDecoderAgent] ∧
    decide (UnitYDetokenizerAgent
        ∈ (consumersOf SeamlessS2STJointVADAgent_pipeline
            OfflineWav2VecBertEncoderAgent).getD []) = false := by
  decide

/-- C2 (amended): in both declared tree pipelines the fan-out point is the
monotonic text decoder: the consumer list of `UnitYMMATextDecoderAgent`
contains both the detokenizer and the unit decoder, i.e. one text-decoder
output feeds both. -/
theorem C2_fanout_at_text_decoder :
    consumersOf MonotonicM4TS2STJointVADAgent_pipeline UnitYMMATextDecoderAgent
        = some [UnitYDetokenizerAgent, NARUnitYUnitDecoderAgent] ∧
    consumersOf SeamlessS2STJointVADAgent_pipeline UnitYMMATextDecoderAgent
        = some [UnitYDetokenizerAgent, NARUnitYUnitDecoderAgent] := by
  decide

/-- C4: the topological execution order of both declared tree pipelines is
computed deterministically at construction, coincides with the declaration
order of the pipeline mapping (the tie-break), respects every declared
edge, and the tree-pipeline run is a function of its input: identical
inputs give identical execution results. -/
theorem C4_tree_pipeline_execution_deterministic :
    (topoOrder MonotonicM4TS2STJointVADAgent_pipeline
        = declNodes MonotonicM4TS2STJointVADAgent_pipeline ∧
      respectsEdges MonotonicM4TS2STJointVADAgent_pipeline
        (topoOrder MonotonicM4TS2STJointVADAgent_pipeline) = true) ∧
    (topoOrder SeamlessS2STJointVADAgent_pipeline
        = declNodes SeamlessS2STJointVADAgent_pipeline ∧
      respectsEdges SeamlessS2STJointVADAgent_pipeline
        (topoOrder SeamlessS2STJointVADAgent_pipeline) = true) ∧
    ∀ (α : Type) (step : AgentClass → List α → α) (g : TreeDecl) (x y : α),
      x = y →
      UnitYAgentTreePipeline_run step g x = UnitYAgentTreePipeline_run step g y := by
  refine ⟨by decide, by decide, ?_⟩
  intro α step g x y h
  rw [h]

/-- C4 witness: the determinism clause applied to a concrete step function
and input on the monotonic joint-VAD tree pipeline. -/
theorem C4_witness :
    (0 : Nat) = 0 ∧
    UnitYAgentTreePipeline_run (fun _ l => l.length)
        MonotonicM4TS2STJointVADAgent_pipeline 0
      = UnitYAgentTreePipeline_run (fun _ l => l.length)
        MonotonicM4TS2STJointVADAgent_pipeline 0 :=
  ⟨rfl, C4_tree_pipeline_execution_deterministic.2.2 Nat (fun _ l => l.length)
      MonotonicM4TS2STJointVADAgent_pipeline 0 0 rfl⟩

/-- C5: the three declared linear pipelines list their agents in the
spec's stage order (optional voice-activity gating, feature extraction,
speech encoding, monotonic text decoding, unit decoding, vocoding), and
the linear driver feeds each agent's output as the next listed agent's
input, composing the stages in that order. -/
theorem C5_linear_pipelines_follow_stage_order :
    (MonotonicM4TS2STAgent_pipeline.map stageIndex = [1, 2, 3, 4, 5] ∧
      SeamlessS2STAgent_pipeline.map stageIndex = [1, 2, 3, 4, 5] ∧
      MonotonicM4TS2STVADAgent_pipeline.map stageIndex = [0, 1, 2, 3, 4, 5]) ∧
    ∀ (α : Type) (step : AgentClass → α → α) (x : α),
      UnitYAgentPipeline_run step MonotonicM4TS2STVADAgent_pipeline x =
        step VocoderAgent (step NARUnitYUnitDecoderAgent
          (step UnitYMMATextDecoderAgent (step OfflineWav2VecBertEncoderAgent
            (step OnlineFeatureExtractorAgent (step SileroVADAgent x))))) :=
  ⟨by decide, fun _ _ _ => rfl⟩

/-- C6: wherever the `SileroVADAgent` appears it is source-adjacent — the
head of the one linear pipeline declaring it, and the unique node without
incoming edges in both tree pipelines. -/
theorem C6_vad_source_adjacent :
    MonotonicM4TS2STVADAgent_pipeline.head? = some SileroVADAgent ∧
    sourcesOf MonotonicM4TS2STJointVADAgent_pipeline = [SileroVADAgent] ∧
    sourcesOf SeamlessS2STJointVADAgent_pipeline = [SileroVADAgent] := by
  decide

end Seamless

namespace Seamless

set_option maxRecDepth 40000 in
/-- Evaluation of the `LANG2_LANG3` dict literal. -/
theorem LANG2_LANG3_eval : LANG2_LANG3 = LANG2_LANG3_nf := by decide

set_option maxRecDepth 40000 in
/-- Evaluation of the `LANG3_LANG2` dict comprehension. -/
theorem LANG3_LANG2_eval : LANG3_LANG2 = LANG3_LANG2_nf := by decide

set_option maxRecDepth 40000 in
/-- C8: `LANG3_LANG2` is a right inverse of `LANG2_LANG3` — every entry
`(v, k)` of `LANG3_LANG2` satisfies `LANG2_LANG3[k] = v`, so the round
trip from every three-letter key succeeds — while the round trip from a
two-letter key can fail: `"ga"` maps to `"gle"`, which maps back to
`"ga-IE"`, a different key. -/
theorem C8_lang3_lang2_right_inverse :
    (LANG3_LANG2.all (fun p => dictGet LANG2_LANG3 p.2 == some p.1)) = true ∧
    dictGet LANG2_LANG3 "ga" = some "gle" ∧
    dictGet LANG3_LANG2 "gle" = some "ga-IE" ∧
    (("ga-IE" : String) == "ga") = false := by
  simp only [LANG2_LANG3_eval, LANG3_LANG2_eval]
  decide

end Seamless

namespace Seamless

/-- C3: in the modelled driver discipline, an agent's output edge closes at
the first finished segment: every segment an agent emits within one
utterance other than the last is unfinished, so once `is_finished = true`
is emitted no further segment (empty or not) follows on that edge. -/
theorem C3_finished_segment_is_terminal {σ ι α : Type}
    (policy : σ → ι → σ × Action α) (inputs : List ι) (s : σ)
    (seg : Segment α) (hseg : seg ∈ (agentEmissions policy inputs s).dropLast) :
    seg.is_finished = false := by
  induction inputs generalizing s with
  | nil => simp [agentEmissions] at hseg
  | cons i rest ih =>
    rw [agentEmissions] at hseg
    cases hpol : policy s i with
    | mk s2 act =>
      rw [hpol] at hseg
      cases act with
      | read => exact ih s2 hseg
      | write seg0 =>
        replace hseg : seg ∈ (if seg0.is_finished = true then [seg0]
            else seg0 :: agentEmissions policy rest s2).dropLast := hseg
        by_cases hf : seg0.is_finished = true
        · rw [if_pos hf] at hseg
          simp [List.dropLast_single] at hseg
        · rw [if_neg hf] at hseg
          cases hL : agentEmissions policy rest s2 with
          | nil => rw [hL] at hseg; simp [List.dropLast_single] at hseg
          | cons b L2 =>
            rw [hL, List.dropLast_cons₂] at hseg
            rcases List.mem_cons.mp hseg with h1 | h2
            · subst h1; exact Bool.of_not_eq_true hf
            · exact ih s2 (by rw [hL]; exact h2)

/-- C3 witness: a concrete policy that emits `0, 1` unfinished and then a
finished `2`; the non-terminal emission `1` is unfinished. -/
theorem C3_witness :
    ({ payload := 1, is_finished := false } : Segment Nat) ∈
      (agentEmissions polW [0, 1, 2, 3] ()).dropLast ∧
    ({ payload := 1, is_finished := false } : Segment Nat).is_finished = false :=
  ⟨by decide, C3_finished_segment_is_terminal polW [0, 1, 2, 3] () _ (by decide)⟩

end Seamless

namespace Seamless

/-- Every call `runEvalLoop` records is `predict` applied to the fields of
the context it threads, which the loop never changes. -/
theorem runEvalLoop_mem {O : Type} {ctx : EvalContext O} {bs : List Bool}
    {c : PredictCall O} (h : c ∈ runEvalLoop ctx bs) : c = mkPredictCall ctx := by
  induction bs with
  | nil => simp [runEvalLoop] at h
  | cons b rest ih =>
    rw [runEvalLoop] at h
    rcases List.mem_append.mp h with h1 | h2
    · cases b
      · simp at h1
      · simpa using h1
    · exact ih h2

/-- `build_data_pipeline` can rewrite `ctx.source_lang` but leaves the
generation options and the n-gram filtering flag untouched. -/
theorem build_ctx_opts {O : Type} {ctx ctx2 : EvalContext O} {hdr : Bool}
    {s : String} (h : build_data_pipeline_ctx ctx hdr s = some ctx2) :
    ctx2.text_generation_opts = ctx.text_generation_opts ∧
    ctx2.unit_generation_opts = ctx.unit_generation_opts ∧
    ctx2.unit_generation_ngram_filtering = ctx.unit_generation_ngram_filtering := by
  unfold build_data_pipeline_ctx at h
  split_ifs at h <;> simp only [Option.some.injEq] at h <;>
    (subst h; exact ⟨rfl, rfl, rfl⟩)

/-- C7: the builder-supplied configuration is frozen for the lifetime of
the driver — every `translator.predict` invocation `run_eval` issues, over
all batches, carries the `text_generation_opts`, `unit_generation_opts`
and `unit_generation_ngram_filtering` values fixed at construction of the
`EvalContext`. -/
theorem C7_predict_options_frozen {O : Type} (ctx : EvalContext O)
    (hdr : Bool) (s : String) (batches : List Bool) (c : PredictCall O)
    (hc : c ∈ run_eval_calls ctx hdr s batches) :
    c.text_generation_opts = ctx.text_generation_opts ∧
    c.unit_generation_opts = ctx.unit_generation_opts ∧
    c.unit_generation_ngram_filtering = ctx.unit_generation_ngram_filtering := by
  unfold run_eval_calls at hc
  cases hb : build_data_pipeline_ctx ctx hdr s with
  | none => rw [hb] at hc; simp at hc
  | some ctx2 =>
    rw [hb] at hc
    obtain rfl := runEvalLoop_mem hc
    exact build_ctx_opts hb

/-- C7 witness: on a concrete context and three batches (the second one
entirely corrupted), the first recorded call carries the constructed
options. -/
theorem C7_witness :
    mkPredictCall ctxW ∈ run_eval_calls ctxW true "fra" [true, false, true] ∧
    ((mkPredictCall ctxW).text_generation_opts = ctxW.text_generation_opts ∧
      (mkPredictCall ctxW).unit_generation_opts = ctxW.unit_generation_opts ∧
      (mkPredictCall ctxW).unit_generation_ngram_filtering
        = ctxW.unit_generation_ngram_filtering) :=
  ⟨by decide, C7_predict_options_frozen ctxW true "fra" [true, false, true]
    (mkPredictCall ctxW) (by decide)⟩

/-- C10: calling `_py_type_to_ctype` with `None` evaluates `t.__module__`
before the `t is None` test and so raises `AttributeError`; consequently
the `if t is None: return None` branch is dead — no input makes the
function return the Python `None`. -/
theorem C10_none_raises_attribute_error :
    _py_type_to_ctype PyAnn.pyNone = Except.error PyErr.attributeError ∧
    ∀ t : PyAnn, returnsPyNone t = false := by
  refine ⟨rfl, ?_⟩
  intro t
  cases t with
  | strAnn s => rfl
  | pyNone => rfl
  | intTy => rfl
  | floatTy => rfl
  | boolTy => rfl
  | strTy => rfl
  | ctypesTy n => rfl
  | structTy n m =>
    by_cases hm : m = "ctypes" <;>
      simp [returnsPyNone, _py_type_to_ctype, dunderModule, isStrInstance,
        isStructureSubclass, hm]
  | otherTy m =>
    by_cases hm : m = "ctypes" <;>
      simp [returnsPyNone, _py_type_to_ctype, dunderModule, isStrInstance,
        isStructureSubclass, hm]
  | ptrTy a =>
    have hu : _py_type_to_ctype (PyAnn.ptrTy a)
        = (_py_type_to_ctype a).map CtypeVal.pointer := by
      simp [_py_type_to_ctype, dunderModule, isStrInstance, isStructureSubclass]
    rw [returnsPyNone, hu]
    cases h2 : _py_type_to_ctype a with
    | error e => rfl
    | ok v => rfl

/-- C10 witness: the dead-branch clause applied to `Ptr[int]`, whose
translation succeeds with a pointer type, not `None`. -/
theorem C10_witness : returnsPyNone (PyAnn.ptrTy PyAnn.intTy) = false :=
  C10_none_raises_attribute_error.2 (PyAnn.ptrTy PyAnn.intTy)

end Seamless

namespace Seamless

/-- `maskFilter` of an empty list is empty. -/
theorem maskFilter_nil {β : Type} (m : List Bool) :
    maskFilter m ([] : List β) = [] := by
  cases m <;> rfl

/-- `maskFilter` keeps the head at a `true` mask position. -/
theorem maskFilter_cons_true {β : Type} (m : List Bool) (x : β) (l : List β) :
    maskFilter (true :: m) (x :: l) = x :: maskFilter m l := rfl

/-- `maskFilter` drops the head at a `false` mask position. -/
theorem maskFilter_cons_false {β : Type} (m : List Bool) (x : β) (l : List β) :
    maskFilter (false :: m) (x :: l) = maskFilter m l := rfl

/-- In-range Python indexing succeeds with the indexed element. -/
theorem pyIndex_ok {β : Type} {l : List β} {k : Nat} (h : k < l.length) :
    pyIndex l k = Except.ok l[k] := by
  unfold pyIndex
  rw [List.getElem?_eq_getElem h]

/-- The adjustment loop, started at counter `k` with exactly the remaining
`text.drop k` entries still to copy, succeeds and interleaves the copied
entries (at `true` mask positions, in order) with the dummy outputs (at
`false` positions). -/
theorem adjustLoop_spec (text : List String) (so : Option BatchedSpeechOutput)
    (hs : ∀ s, so = some s →
      s.units.length = text.length ∧ s.audio_wavs.length = text.length) :
    ∀ (valid : List Bool) (k : Nat), text.length = k + valid.count true →
    ∃ ts us ws, adjustLoop text so valid k = Except.ok (ts, us, ws) ∧
      ts.length = valid.length ∧
      maskFilter valid ts = text.drop k ∧
      (∀ p ∈ valid.zip ts, p.1 = false → p.2 = "") ∧
      ∀ s, so = some s →
        us.length = valid.length ∧ ws.length = valid.length ∧
        maskFilter valid us = s.units.drop k ∧
        maskFilter valid ws = s.audio_wavs.drop k ∧
        (∀ p ∈ valid.zip us, p.1 = false → p.2 = []) ∧
        (∀ p ∈ valid.zip ws, p.1 = false →
          p.2 = List.replicate default_sample_rate 0) := by
  intro valid
  induction valid with
  | nil =>
    intro k ht
    rw [List.count_nil] at ht
    refine ⟨[], [], [], rfl, rfl, ?_, by simp, ?_⟩
    · rw [maskFilter_nil, List.drop_eq_nil_of_le (by omega)]
    · intro s hso
      obtain ⟨hu, hw⟩ := hs s hso
      refine ⟨rfl, rfl, ?_, ?_, by simp, by simp⟩
      · rw [maskFilter_nil, List.drop_eq_nil_of_le (by omega)]
      · rw [maskFilter_nil, List.drop_eq_nil_of_le (by omega)]
  | cons b rest ih =>
    intro k ht
    cases b with
    | true =>
      have hcnt : (true :: rest).count true = rest.count true + 1 := by
        simp [List.count_cons]
      have hk : k < text.length := by omega
      obtain ⟨ts, us, ws, heq, hlen, hmask, hfalse, hsp⟩ :=
        ih (k + 1) (by omega)
      have hdrop : text.drop k = text[k] :: text.drop (k + 1) :=
        List.drop_eq_getElem_cons hk
      cases so with
      | none =>
        refine ⟨text[k] :: ts, us, ws, ?_, by simp [hlen], ?_, ?_, ?_⟩
        · rw [adjustLoop]
          simp only [if_true, pyIndex_ok hk, heq, Except.bind]
          rfl
        · rw [maskFilter_cons_true, hmask, hdrop]
        · intro p hp
          rcases List.mem_cons.mp hp with h1 | h2
          · subst h1; intro h; cases h
          · exact hfalse p h2
        · intro s hso; cases hso
      | some s0 =>
        obtain ⟨hul, hwl⟩ := hs s0 rfl
        have hku : k < s0.units.length := by omega
        have hkw : k < s0.audio_wavs.length := by omega
        obtain ⟨hus, hws, humask, hwmask, hufalse, hwfalse⟩ := hsp s0 rfl
        refine ⟨text[k] :: ts, s0.units[k] :: us, s0.audio_wavs[k] :: ws,
          ?_, by simp [hlen], ?_, ?_, ?_⟩
        · rw [adjustLoop]
          simp only [if_true, pyIndex_ok hk, pyIndex_ok hku, pyIndex_ok hkw,
            heq, Except.bind]
          rfl
        · rw [maskFilter_cons_true, hmask, hdrop]
        · intro p hp
          rcases List.mem_cons.mp hp with h1 | h2
          · subst h1; intro h; cases h
          · exact hfalse p h2
        · intro s hso
          obtain rfl : s0 = s := by injection hso
          refine ⟨by simp [hus], by simp [hws], ?_, ?_, ?_, ?_⟩
          · rw [maskFilter_cons_true, humask, List.drop_eq_getElem_cons hku]
          · rw [maskFilter_cons_true, hwmask, List.drop_eq_getElem_cons hkw]
          · intro p hp
            rcases List.mem_cons.mp hp with h1 | h2
            · subst h1; intro h; cases h
            · exact hufalse p h2
          · intro p hp
            rcases List.mem_cons.mp hp with h1 | h2
            · subst h1; intro h; cases h
            · exact hwfalse p h2
    | false =>
      have hcnt : (false :: rest).count true = rest.count true := by
        simp [List.count_cons]
      obtain ⟨ts, us, ws, heq, hlen, hmask, hfalse, hsp⟩ := ih k (by omega)
      cases so with
      | none =>
        refine ⟨"" :: ts, us, ws, ?_, by simp [hlen], ?_, ?_, ?_⟩
        · rw [adjustLoop]
          simp only [if_false, heq, Except.bind]
          rfl
        · rw [maskFilter_cons_false, hmask]
        · intro p hp
          rcases List.mem_cons.mp hp with h1 | h2
          · subst h1; intro _; rfl
          · exact hfalse p h2
        · intro s hso; cases hso
      | some s0 =>
        obtain ⟨hus, hws, humask, hwmask, hufalse, hwfalse⟩ := hsp s0 rfl
        refine ⟨"" :: ts, [] :: us, List.replicate default_sample_rate 0 :: ws,
          ?_, by simp [hlen], ?_, ?_, ?_⟩
        · rw [adjustLoop]
          simp only [if_false, heq, Except.bind]
          rfl
        · rw [maskFilter_cons_false, hmask]
        · intro p hp
          rcases List.mem_cons.mp hp with h1 | h2
          · subst h1; intro _; rfl
          · exact hfalse p h2
        · intro s hso
          obtain rfl : s0 = s := by injection hso
          refine ⟨by simp [hus], by simp [hws], ?_, ?_, ?_, ?_⟩
          · rw [maskFilter_cons_false, humask]
          · rw [maskFilter_cons_false, hwmask]
          · intro p hp
            rcases List.mem_cons.mp hp with h1 | h2
            · subst h1; intro _; rfl
            · exact hufalse p h2
          · intro p hp
            rcases List.mem_cons.mp hp with h1 | h2
            · subst h1; intro _; rfl
            · exact hwfalse p h2

/-- C9: given a validity mask with exactly `text_output.length` true
entries (and speech output, when present, of matching lengths),
`adjust_output_for_corrupted_inputs` returns a text list as long as the
mask whose true positions carry `text_output` in order and whose false
positions carry `""`; the adjusted speech output likewise carries the
original units and waveforms at true positions, and an empty unit list
and one second of zeros at the default sample rate at false positions. -/
theorem C9_adjust_output_shape (valid : List Bool) (text : List String)
    (so : Option BatchedSpeechOutput)
    (ht : valid.count true = text.length)
    (hs : ∀ s, so = some s →
      s.units.length = text.length ∧ s.audio_wavs.length = text.length) :
    ∃ ts so2, adjust_output_for_corrupted_inputs valid text so
        = Except.ok (ts, so2) ∧
      ts.length = valid.length ∧
      maskFilter valid ts = text ∧
      (∀ p ∈ valid.zip ts, p.1 = false → p.2 = "") ∧
      (so = none → so2 = none) ∧
      ∀ s, so = some s → ∃ s2, so2 = some s2 ∧
        s2.sample_rate = default_sample_rate ∧
        s2.units.length = valid.length ∧ s2.audio_wavs.length = valid.length ∧
        maskFilter valid s2.units = s.units ∧
        maskFilter valid s2.audio_wavs = s.audio_wavs ∧
        (∀ p ∈ valid.zip s2.units, p.1 = false → p.2 = []) ∧
        (∀ p ∈ valid.zip s2.audio_wavs, p.1 = false →
          p.2 = List.replicate default_sample_rate 0) := by
  obtain ⟨ts, us, ws, heq, hlen, hmask, hfalse, hsp⟩ :=
    adjustLoop_spec text so hs valid 0 (by omega)
  rw [List.drop_zero] at hmask
  cases so with
  | none =>
    refine ⟨ts, none, ?_, hlen, hmask, hfalse, fun _ => rfl, ?_⟩
    · simp only [adjust_output_for_corrupted_inputs, heq, Except.bind]
      rfl
    · intro s hso; cases hso
  | some s0 =>
    have hcond : text.length = s0.units.length ∧
        s0.units.length = s0.audio_wavs.length := by
      obtain ⟨hu, hw⟩ := hs s0 rfl
      omega
    obtain ⟨hus, hws, humask, hwmask, hufalse, hwfalse⟩ := hsp s0 rfl
    rw [List.drop_zero] at humask hwmask
    refine ⟨ts, some ⟨us, ws, default_sample_rate⟩, ?_, hlen, hmask, hfalse,
      ?_, ?_⟩
    · simp only [adjust_output_for_corrupted_inputs, if_pos hcond, heq,
        Except.bind]
      rfl
    · intro h; cases h
    · intro s hso
      obtain rfl : s0 = s := by injection hso
      exact ⟨⟨us, ws, default_sample_rate⟩, rfl, rfl, hus, hws, humask,
        hwmask, hufalse, hwfalse⟩

/-- C9 witness: a three-row batch whose middle row is corrupted, with a
two-row speech output. -/
theorem C9_witness :
    ([true, false, true].count true = (["a", "b"] : List String).length) ∧
    (∀ s, some soW = some s →
      s.units.length = (["a", "b"] : List String).length ∧
      s.audio_wavs.length = (["a", "b"] : List String).length) ∧
    (∃ ts so2, adjust_output_for_corrupted_inputs [true, false, true]
        ["a", "b"] (some soW) = Except.ok (ts, so2) ∧
      ts.length = [true, false, true].length ∧
      maskFilter [true, false, true] ts = ["a", "b"] ∧
      (∀ p ∈ [true, false, true].zip ts, p.1 = false → p.2 = "") ∧
      (some soW = none → so2 = none) ∧
      ∀ s, some soW = some s → ∃ s2, so2 = some s2 ∧
        s2.sample_rate = default_sample_rate ∧
        s2.units.length = [true, false, true].length ∧
        s2.audio_wavs.length = [true, false, true].length ∧
        maskFilter [true, false, true] s2.units = s.units ∧
        maskFilter [true, false, true] s2.audio_wavs = s.audio_wavs ∧
        (∀ p ∈ [true, false, true].zip s2.units, p.1 = false → p.2 = []) ∧
        (∀ p ∈ [true, false, true].zip s2.audio_wavs, p.1 = false →
          p.2 = List.replicate default_sample_rate 0)) :=
  ⟨by decide,
    fun s h => by
      obtain rfl : soW = s := by injection h
      exact ⟨rfl, rfl⟩,
    C9_adjust_output_shape [true, false, true] ["a", "b"] (some soW)
      (by decide)
      (fun s h => by
        obtain rfl : soW = s := by injection h
        exact ⟨rfl, rfl⟩)⟩

end Seamless
